import Mathlib

/-!
Verification development for the gearfalcon-frontend repository.

The file shallowly embeds, from the TypeScript source:
  * the password-strength validator module
    (src/app/shared/lib/validators/passwordValidator.ts, the canonical
    module with thresholds 80/60/40/20 that the spec line references
    point at),
  * the secure password generator from the same module,
  * the session token store (src/app/shared/hooks/useAuth.tsx),
  * the authenticated request pipeline with its single-flight token
    refresh queue (src/app/shared/services/axiosClient.ts),
  * the public password-validation hook
    (src/app/shared/hooks/usePasswordValidation.tsx).

Strings are modelled as Lean String over their character lists; the
passwords of interest are ASCII, where JS length / toLowerCase agree
with the Lean counterparts used here.  Imperative accumulation of
feedback / score / isValid in the source is rendered as ordered list
appends, an integer sum in source order, and a conjunction of the
negated hard-failure conditions; each summand / append / conjunct
corresponds to one statement block of the source function.
-/

namespace Gearfalcon

/-! Section: Password validator: data model (passwordValidator.ts) -/

/-- PasswordRequirements configuration record from the source. -/
structure PasswordRequirements where
  minLength : Nat
  maxLength : Nat
  requireUppercase : Bool
  requireLowercase : Bool
  requireNumbers : Bool
  requireSpecialChars : Bool
  preventCommonPasswords : Bool
deriving Repr, DecidableEq

/-- DEFAULT_PASSWORD_REQUIREMENTS from the source. -/
def DEFAULT_PASSWORD_REQUIREMENTS : PasswordRequirements :=
  { minLength := 8
    maxLength := 128
    requireUppercase := true
    requireLowercase := true
    requireNumbers := true
    requireSpecialChars := true
    preventCommonPasswords := true }

/-- PasswordStrength union type from the source. -/
inductive PasswordStrength where
  | veryWeak | weak | medium | strong | veryStrong | invalid
deriving Repr, DecidableEq

/-- ValidationRequirement record from the source. -/
structure ValidationRequirement where
  id : String
  label : String
  met : Bool
  required : Bool
deriving Repr, DecidableEq

/-- ValidationResult record from the source.  The score is an integer
during accumulation (it can go negative before the final clamp), so it
is carried as Int. -/
structure ValidationResult where
  isValid : Bool
  score : Int
  strength : PasswordStrength
  feedback : List String
  requirements : List ValidationRequirement
deriving Repr, DecidableEq

/-- COMMON_PASSWORDS deny-list from the source. -/
def COMMON_PASSWORDS : List String :=
  ["password", "123456", "12345678", "qwerty", "abc123",
   "password123", "admin", "letmein", "welcome", "1234567890",
   "gearfalcon", "aircon", "service", "customer", "admin123"]

/-! Section: Regex patterns, rendered as decidable character predicates -/

/-- REGEX_PATTERNS.uppercase, the test of /[A-Z]/ on one character. -/
def isUpperChar (c : Char) : Bool := ('A' ≤ c) && (c ≤ 'Z')

/-- REGEX_PATTERNS.lowercase, the test of /[a-z]/ on one character. -/
def isLowerChar (c : Char) : Bool := ('a' ≤ c) && (c ≤ 'z')

/-- REGEX_PATTERNS.numbers, the test of /[0-9]/ on one character. -/
def isDigitChar (c : Char) : Bool := ('0' ≤ c) && (c ≤ '9')

/-- Character class of REGEX_PATTERNS.specialChars from the source
regex; the braces of the class are written with hex escapes. -/
def SPECIAL_CHARS : String := "!@#$%^&*(),.?\":\x7b\x7d|<>_-+=[]\\/~`"

/-- Membership test in the special character class. -/
def isSpecialChar (c : Char) : Bool := SPECIAL_CHARS.toList.contains c

/-- Test of REGEX_PATTERNS.uppercase against the whole password. -/
def hasUppercase (s : String) : Bool := s.toList.any isUpperChar

/-- Test of REGEX_PATTERNS.lowercase against the whole password. -/
def hasLowercase (s : String) : Bool := s.toList.any isLowerChar

/-- Test of REGEX_PATTERNS.numbers against the whole password. -/
def hasNumber (s : String) : Bool := s.toList.any isDigitChar

/-- Test of REGEX_PATTERNS.specialChars against the whole password. -/
def hasSpecialChar (s : String) : Bool := s.toList.any isSpecialChar

/-- ASCII lowering of a string, modelling String.prototype.toLowerCase
on the ASCII passwords in scope. -/
def toLowerStr (s : String) : String := String.mk (s.toList.map Char.toLower)

/-- COMMON_PASSWORDS.includes(password.toLowerCase()) from the source. -/
def isCommonPassword (s : String) : Bool := COMMON_PASSWORDS.contains (toLowerStr s)

/-- Alternatives of the commonSequence regex (three-character ascending
runs of digits or letters); the regex is case-insensitive, handled by
lowering the password before the search. -/
def SEQUENCE_TRIPLES : List String :=
  ["012", "123", "234", "345", "456", "567", "678", "789", "890",
   "abc", "bcd", "cde", "def", "efg", "fgh", "ghi", "hij", "ijk", "jkl",
   "klm", "lmn", "mno", "nop", "opq", "pqr", "qrs", "rst", "stu", "tuv",
   "uvw", "vwx", "wxy", "xyz"]

/-- Alternatives of the keyboard regex (adjacent keyboard runs),
case-insensitive like the source regex. -/
def KEYBOARD_TRIPLES : List String :=
  ["qwe", "wer", "ert", "rty", "tyu", "yui", "uio", "iop",
   "asd", "sdf", "dfg", "fgh", "ghj", "hjk", "jkl",
   "zxc", "xcv", "cvb", "vbn", "bnm"]

/-- Whether pat occurs at the head of s. -/
def headMatches : List Char → List Char → Bool
  | _, [] => true
  | [], _ :: _ => false
  | c :: cs, d :: ds => (c == d) && headMatches cs ds

/-- Whether pat occurs anywhere inside s (regex substring search). -/
def containsSeq (s pat : List Char) : Bool :=
  match s with
  | [] => headMatches [] pat
  | _ :: rest => headMatches s pat || containsSeq rest pat

/-- Test of REGEX_PATTERNS.commonSequence against the password. -/
def hasCommonSequence (s : String) : Bool :=
  SEQUENCE_TRIPLES.any (fun t => containsSeq (toLowerStr s).toList t.toList)

/-- Test of REGEX_PATTERNS.repeatedChars /(.)\1 with two or more extra
copies/: three equal consecutive characters somewhere. -/
def hasTripleRepeat : List Char → Bool
  | a :: b :: c :: rest => ((a == b) && (b == c)) || hasTripleRepeat (b :: c :: rest)
  | _ => false

/-- Test of REGEX_PATTERNS.keyboard against the password. -/
def hasKeyboardRun (s : String) : Bool :=
  KEYBOARD_TRIPLES.any (fun t => containsSeq (toLowerStr s).toList t.toList)

/-- Size of new Set(password.toLowerCase()): the number of distinct
characters of the lowered password. -/
def uniqueCharCount (s : String) : Nat := ((toLowerStr s).toList).dedup.length

/-! Section: Password validator: functions -/

/-- getPasswordStrength from the source: score thresholds 80/60/40/20. -/
def getPasswordStrength (score : Int) : PasswordStrength :=
  if score ≥ 80 then .veryStrong
  else if score ≥ 60 then .strong
  else if score ≥ 40 then .medium
  else if score ≥ 20 then .weak
  else .veryWeak

/-- getRequirementsList from the source: the six-entry checklist,
filtered to the required entries. -/
def getRequirementsList (password : String) (config : PasswordRequirements) :
    List ValidationRequirement :=
  ([ { id := "length"
       label := "At least " ++ toString config.minLength ++ " characters"
       met := decide (password.length ≥ config.minLength)
       required := true },
     { id := "uppercase"
       label := "One uppercase letter (A-Z)"
       met := hasUppercase password
       required := config.requireUppercase },
     { id := "lowercase"
       label := "One lowercase letter (a-z)"
       met := hasLowercase password
       required := config.requireLowercase },
     { id := "numbers"
       label := "One number (0-9)"
       met := hasNumber password
       required := config.requireNumbers },
     { id := "special"
       label := "One special character (!@#$%^&*)"
       met := hasSpecialChar password
       required := config.requireSpecialChars },
     { id := "common"
       label := "Not a common password"
       met := !isCommonPassword password
       required := config.preventCommonPasswords } ] :
    List ValidationRequirement).filter (fun r => r.required)

/-- validatePasswordStrength from the source.  The falsy check on the
password argument short-circuits on the empty string; afterwards the
mutation sequence of the source is rendered in source order: feedback
pushes become ordered appends, score updates an integer sum, the
isValid flag the conjunction of the negated hard-failure conditions.
The diversity bonus compares the distinct-character count against 0.7
times the length; the comparison is modelled exactly over integers
(10 * unique >= 7 * length). -/
def validatePasswordStrength (password : String)
    (options : PasswordRequirements := DEFAULT_PASSWORD_REQUIREMENTS) :
    ValidationResult :=
  let config := options
  if password = "" then
    { isValid := false
      score := 0
      strength := .invalid
      feedback := ["Password is required"]
      requirements := getRequirementsList "" config }
  else
    let len := password.length
    let hasUpper := hasUppercase password
    let hasLower := hasLowercase password
    let hasNum := hasNumber password
    let hasSpecial := hasSpecialChar password
    let isCommon := isCommonPassword password
    let feedback : List String :=
      (if len < config.minLength then
        ["Password must be at least " ++ toString config.minLength ++ " characters long"]
       else []) ++
      (if len > config.maxLength then
        ["Password must not exceed " ++ toString config.maxLength ++ " characters"]
       else []) ++
      (if config.requireUppercase && !hasUpper then
        ["Password must contain at least one uppercase letter (A-Z)"] else []) ++
      (if config.requireLowercase && !hasLower then
        ["Password must contain at least one lowercase letter (a-z)"] else []) ++
      (if config.requireNumbers && !hasNum then
        ["Password must contain at least one number (0-9)"] else []) ++
      (if config.requireSpecialChars && !hasSpecial then
        ["Password must contain at least one special character (!@#$%^&*(),.?\":\x7b\x7d|<>_-+=[]\\/)"]
       else []) ++
      (if config.preventCommonPasswords && isCommon then
        ["This password is too common. Please choose a more unique password"] else []) ++
      (if hasCommonSequence password then
        ["⚠️ Avoid common sequences like \"123\" or \"abc\" for better security"] else []) ++
      (if hasTripleRepeat password.toList then
        ["⚠️ Avoid repeating characters like \"aaa\" for better security"] else []) ++
      (if hasKeyboardRun password then
        ["⚠️ Avoid keyboard patterns like \"qwerty\" for better security"] else [])
    let isValid : Bool :=
      !(decide (len < config.minLength)) &&
      !(decide (len > config.maxLength)) &&
      !(config.requireUppercase && !hasUpper) &&
      !(config.requireLowercase && !hasLower) &&
      !(config.requireNumbers && !hasNum) &&
      !(config.requireSpecialChars && !hasSpecial) &&
      !(config.preventCommonPasswords && isCommon)
    let score : Int :=
      (if len < config.minLength then 0 else if len ≥ config.minLength then 10 else 0) +
      (if config.requireUppercase && !hasUpper then 0 else if hasUpper then 15 else 0) +
      (if config.requireLowercase && !hasLower then 0 else if hasLower then 15 else 0) +
      (if config.requireNumbers && !hasNum then 0 else if hasNum then 15 else 0) +
      (if config.requireSpecialChars && !hasSpecial then 0 else if hasSpecial then 15 else 0) +
      (if config.preventCommonPasswords && isCommon then -20 else 0) +
      (if hasCommonSequence password then -10 else 0) +
      (if hasTripleRepeat password.toList then -10 else 0) +
      (if hasKeyboardRun password then -10 else 0) +
      (if len ≥ 12 then 10 else 0) +
      (if len ≥ 16 then 10 else 0) +
      (if 10 * uniqueCharCount password ≥ 7 * len then 10 else 0)
    let score : Int := max 0 score
    { isValid := isValid
      score := score
      strength := getPasswordStrength score
      feedback := if feedback.length > 0 then feedback else ["Password meets all requirements"]
      requirements := getRequirementsList password config }

/-! Section: Secure password generator (passwordValidator.ts)

The generator draws randomness from the Web Crypto API (or a fallback);
either way every draw yields an arbitrary natural number that is
reduced modulo the pool size.  The whole random source is modelled as
an oracle, a function from the draw index (draws are consumed in
program order) to an arbitrary natural number; the claims quantify over
every oracle. -/

/-- Uppercase pool of generateSecurePassword. -/
def GEN_UPPERCASE : String := "ABCDEFGHIJKLMNOPQRSTUVWXYZ"

/-- Lowercase pool of generateSecurePassword. -/
def GEN_LOWERCASE : String := "abcdefghijklmnopqrstuvwxyz"

/-- Digit pool of generateSecurePassword. -/
def GEN_NUMBERS : String := "0123456789"

/-- Special pool of generateSecurePassword (note: it differs from the
special-character class of the validator regex). -/
def GEN_SPECIAL : String := "!@#$%^&*()_-=[]\x7b\x7d|;:,.<>?"

/-- Union pool allChars of generateSecurePassword. -/
def GEN_ALL : String := GEN_UPPERCASE ++ GEN_LOWERCASE ++ GEN_NUMBERS ++ GEN_SPECIAL

/-- pick(pool) from the source: one random index into the pool, the
random draw reduced modulo the pool size. -/
def pick (pool : String) (draw : Nat) : Char :=
  (pool.toList).getD (draw % pool.length) 'A'

/-- Swap of two positions of a list, as performed on the chars array by
the destructuring assignment in the shuffle. -/
def listSwap (l : List Char) (i j : Nat) : List Char :=
  (l.set i (l.getD j 'A')).set j (l.getD i 'A')

/-- Fisher-Yates loop of the source: iteration index i runs downward,
and at index i the element is swapped with a random index j up to i.
The parameter k is the position of the next oracle draw. -/
def fisherYates (oracle : Nat → Nat) (k : Nat) (i : Nat) (arr : List Char) : List Char :=
  match i with
  | 0 => arr
  | i' + 1 => fisherYates oracle (k + 1) i' (listSwap arr (i' + 1) (oracle k % (i' + 2)))

/-- generateSecurePassword from the source: the function takes NO
length argument; it seeds one character from each of the four pools,
fills up to 12 characters from the union pool, and applies a
Fisher-Yates shuffle.  Oracle draws are consumed in program order:
draws 0-3 seed the four classes, draws 4-11 fill, draws 12-22 shuffle. -/
def generateSecurePassword (oracle : Nat → Nat) : String :=
  let chars : List Char :=
    [pick GEN_UPPERCASE (oracle 0), pick GEN_LOWERCASE (oracle 1),
     pick GEN_NUMBERS (oracle 2), pick GEN_SPECIAL (oracle 3)] ++
    (List.range 8).map (fun i => pick GEN_ALL (oracle (4 + i)))
  String.mk (fisherYates oracle 12 (chars.length - 1) chars)

/-- Modelling the JavaScript call generateSecurePassword(n): the
function signature in the source declares no parameter, so JavaScript
ignores the extra argument and the result does not depend on n. -/
def generateSecurePasswordCalledWith (_n : Nat) (oracle : Nat → Nat) : String :=
  generateSecurePassword oracle

/-! Section: Session token store (useAuth.tsx)

The AuthProvider keeps the access token in memory; isAuthenticated is
computed as Boolean(accessToken), the JavaScript truthiness of the
token, which is false both for null and for the empty string. -/

/-- State of the AuthProvider: the in-memory access token. -/
structure AuthState where
  accessToken : Option String
deriving Repr, DecidableEq

/-- JavaScript truthiness of a nullable string: null and the empty
string are falsy, every other string truthy. -/
def jsTruthyStr : Option String → Bool
  | none => false
  | some s => s ≠ ""

/-- setAccessToken from the AuthProvider. -/
def setAccessTokenStore (_s : AuthState) (t : Option String) : AuthState :=
  { accessToken := t }

/-- logout from the AuthProvider: clears the token. -/
def logoutStore (_s : AuthState) : AuthState := { accessToken := none }

/-- isAuthenticated from the AuthProvider: Boolean(accessToken). -/
def isAuthenticated (s : AuthState) : Bool := jsTruthyStr s.accessToken

/-! Section: Authenticated request pipeline (axiosClient.ts)

The pipeline is single-threaded and event-driven; its shared state is
the isRefreshing flag, the pendingQueue of continuations, and the
token store.  Queued continuations are identified by the id of the
request that was pushed.  A refresh attempt either succeeds with a new
token or fails with an error string. -/

/-- Shared mutable state of axiosClient: the refresh flag, the queue of
pending continuations (request ids), and the token bridge to the auth
store. -/
structure PipelineState where
  isRefreshing : Bool
  pendingQueue : List Nat
  token : Option String
deriving Repr, DecidableEq

/-- Final outcome of one request that entered the response-error
interceptor. -/
inductive Outcome where
  /-- The original request is replayed with Authorization: Bearer token. -/
  | retriedWith (token : String)
  /-- The promise of the caller is rejected with the refresh error. -/
  | rejected (err : String)
deriving Repr, DecidableEq

/-- Immediate action the response-error interceptor takes on one
incoming error. -/
inductive ErrAction where
  /-- Promise.reject(error): the original error propagates unmodified. -/
  | rejectOriginal
  /-- The retry of the request is appended to pendingQueue. -/
  | enqueued
  /-- The pipeline transitions to Refreshing and issues the one refresh
  call. -/
  | refreshStarted
deriving Repr, DecidableEq

/-- Guard of the response-error interceptor: only a 401 response status
that has not been retried enters the refresh logic (a network error
carries no response status at all, modelled as none). -/
def entersRefreshLogic (status : Option Nat) (retried : Bool) : Bool :=
  !(status ≠ some 401 || retried)

/-- One run of the response-error interceptor up to its first
suspension point, faithful to the source: non-401 or already-retried
errors are rejected unmodified; if a refresh is in flight the request
is queued; otherwise the pipeline sets isRefreshing and issues the
refresh call. -/
def responseErrorStep (s : PipelineState) (reqId : Nat) (status : Option Nat)
    (retried : Bool) : PipelineState × ErrAction :=
  if !entersRefreshLogic status retried then
    (s, .rejectOriginal)
  else if s.isRefreshing then
    ({ s with pendingQueue := s.pendingQueue ++ [reqId] }, .enqueued)
  else
    ({ s with isRefreshing := true }, .refreshStarted)

/-- processQueue from the source: every queued continuation is rejected
when the refresh erred, resolved with the token when the token is
truthy, and rejected with a "No token available" error otherwise; the
queue is then cleared.  The `else if (token)` of the source is a
JavaScript truthiness test, so a null token AND an empty-string token
both fall through to the "No token available" rejection.  The function
returns the outcome of every queued request together with the emptied
queue. -/
def processQueue (error : Option String) (token : Option String)
    (queue : List Nat) : List (Nat × Outcome) × List Nat :=
  (queue.map (fun id =>
      (id,
        match error with
        | some e => Outcome.rejected e
        | none =>
          match token with
          | some t =>
            if t ≠ "" then Outcome.retriedWith t
            else Outcome.rejected "No token available"
          | none => Outcome.rejected "No token available")),
   [])

/-- Settlement of the in-flight refresh call, covering the try/catch/
finally of the source: on success the new token is stored (even when it
is the empty string) and the queue is drained through processQueue —
whose truthiness test rejects every queued continuation when the new
token is empty — while the triggering request is replayed with the new
token unconditionally (the success path sets its Authorization header
without any truthiness check); on failure the queue is drained
rejecting, the token cleared, and the triggering request rejected;
either way isRefreshing resets.  Returns the new state, the outcomes of
the queued requests, and the outcome of the triggering request. -/
def settleRefresh (s : PipelineState) (result : Except String String) :
    PipelineState × List (Nat × Outcome) × Outcome :=
  match result with
  | .ok tok =>
    let (outs, emptied) := processQueue none (some tok) s.pendingQueue
    ({ isRefreshing := false, pendingQueue := emptied, token := some tok },
     outs, .retriedWith tok)
  | .error e =>
    let (outs, emptied) := processQueue (some e) none s.pendingQueue
    ({ isRefreshing := false, pendingQueue := emptied, token := none },
     outs, .rejected e)

/-- Result of a burst of simultaneous 401 failures followed by the
settlement of the refresh they trigger. -/
structure BurstResult where
  refreshCalls : Nat
  outcomes : List (Nat × Outcome)
  final : PipelineState
deriving Repr, DecidableEq

/-- One event-loop step of a burst: the accumulator carries the
pipeline state, the number of refresh calls issued so far, and the id
of the request that started the refresh, when any. -/
def burstStep (acc : PipelineState × Nat × Option Nat) (reqId : Nat) :
    PipelineState × Nat × Option Nat :=
  let (s', act) := responseErrorStep acc.1 reqId (some 401) false
  match act with
  | .refreshStarted => (s', acc.2.1 + 1, some reqId)
  | _ => (s', acc.2.1, acc.2.2)

/-- Folding the response-error interceptor over a list of simultaneous
401-failing, not-yet-retried requests in arrival order (the event loop
runs the handlers sequentially). -/
def foldBurst (s : PipelineState) (reqs : List Nat) :
    PipelineState × Nat × Option Nat :=
  reqs.foldl burstStep (s, 0, none)

/-- A burst of k simultaneous 401 failures (request ids 0..k-1) from a
given start state, followed by the settlement of the refresh when one
was started. -/
def run401Burst (s : PipelineState) (k : Nat) (result : Except String String) :
    BurstResult :=
  let (s', calls, starter) := foldBurst s (List.range k)
  match starter with
  | none => { refreshCalls := calls, outcomes := [], final := s' }
  | some r =>
    let (s'', outs, origOut) := settleRefresh s' result
    { refreshCalls := calls, outcomes := outs ++ [(r, origOut)], final := s'' }

/-- Idle pipeline state with a given stored token. -/
def idleState (t : Option String) : PipelineState :=
  { isRefreshing := false, pendingQueue := [], token := t }

/-! Section: Request interceptor (axiosClient.ts)

The request interceptor of http reads the current token and, when one
is present, writes the Authorization header; it contains NO check of
isRefreshing and never queues: every issued request is sent to the
network immediately. -/

/-- Result of issuing a request through the http instance. -/
inductive IssueResult where
  /-- The request goes to the network carrying the given headers. -/
  | sent (headers : List (String × String))
  /-- The request is held back in the pendingQueue. -/
  | queued
deriving Repr, DecidableEq

/-- Header write performed by the interceptors: sets Authorization to
Bearer followed by the token. -/
def withAuthHeader (token : String) (headers : List (String × String)) :
    List (String × String) :=
  ("Authorization", "Bearer " ++ token) ::
    headers.filter (fun h => h.1 ≠ "Authorization")

/-- Headers produced by the request interceptor: the `if (token)` of
the source is a JavaScript truthiness test, so the Authorization header
is written only for a non-null, nonempty stored token; for a null or
empty-string token the headers pass through unchanged. -/
def requestHeaders (token : Option String)
    (headers : List (String × String)) : List (String × String) :=
  match token with
  | some t => if t ≠ "" then withAuthHeader t headers else headers
  | none => headers

/-- The request interceptor of http: attach the current token when it
is truthy and send; the interceptor never consults isRefreshing and
never queues. -/
def issueRequest (s : PipelineState) (headers : List (String × String)) :
    IssueResult :=
  .sent (requestHeaders s.token headers)

/-! Section: usePasswordValidation hook (usePasswordValidation.tsx)

The hook state is modelled at its settled point (after the debounce
effect ran): for an empty or whitespace-only password the effect stores
null and the evaluator is never invoked; otherwise the evaluator result
is stored.  The returned record derives its fields from the stored
validation with the fallbacks of the source (JavaScript or-defaults). -/

/-- Whitespace trim of String.prototype.trim, modelled over the
character list: leading and trailing whitespace characters removed. -/
def jsTrim (s : String) : String :=
  String.mk (((s.toList.dropWhile Char.isWhitespace).reverse.dropWhile
    Char.isWhitespace).reverse)

/-- PasswordValidationState record returned by the hook (the transient
isValidating flag is settled to false). -/
structure PasswordValidationState where
  validation : Option ValidationResult
  isValid : Bool
  strength : PasswordStrength
  score : Int
  feedback : List String
  requirements : List ValidationRequirement
  hasError : Bool
  isStrong : Bool
  isVeryStrong : Bool
  meetsMinimum : Bool
deriving Repr, DecidableEq

/-- usePasswordValidation from the source, at its settled state: the
effect skips validation entirely for an empty or whitespace-only
password (validation stays null); otherwise it stores the evaluator
result.  The derived fields follow the or-defaults of the returned
object literal. -/
def usePasswordValidation (password : String)
    (options : PasswordRequirements := DEFAULT_PASSWORD_REQUIREMENTS) :
    PasswordValidationState :=
  let validation : Option ValidationResult :=
    if jsTrim password = "" then none
    else some (validatePasswordStrength password options)
  { validation := validation
    isValid := (validation.map (·.isValid)).getD false
    strength := (validation.map (·.strength)).getD .veryWeak
    score := (validation.map (·.score)).getD 0
    feedback := (validation.map (·.feedback)).getD []
    requirements := (validation.map (·.requirements)).getD []
    hasError := validation.isSome && !(validation.map (·.isValid)).getD false
    isStrong := (validation.map (·.strength)).getD .veryWeak == .strong
    isVeryStrong := (validation.map (·.strength)).getD .veryWeak == .veryStrong
    meetsMinimum := (validation.map (·.isValid)).getD false }

/-! Section: Derived predicates used by the theorems -/

/-- Every entry of a requirements list that is flagged required reports
met. -/
def allRequiredMet (reqs : List ValidationRequirement) : Bool :=
  reqs.all (fun r => !r.required || r.met)

/-- Conjunction of the negated hard-failure conditions of
validatePasswordStrength: exactly the conditions that set isValid to
false on a nonempty password; the pattern-based warning checks do not
appear here. -/
def hardChecksOk (s : String) (P : PasswordRequirements) : Bool :=
  !(decide (s.length < P.minLength)) &&
  !(decide (s.length > P.maxLength)) &&
  !(P.requireUppercase && !hasUppercase s) &&
  !(P.requireLowercase && !hasLowercase s) &&
  !(P.requireNumbers && !hasNumber s) &&
  !(P.requireSpecialChars && !hasSpecialChar s) &&
  !(P.preventCommonPasswords && isCommonPassword s)

/-- Total score adjustment of the three pattern-based warning checks:
minus ten per matched pattern. -/
def patternPenalty (s : String) : Int :=
  (if hasCommonSequence s then -10 else 0) +
  (if hasTripleRepeat s.toList then -10 else 0) +
  (if hasKeyboardRun s then -10 else 0)

/-- Score contribution of every block of validatePasswordStrength other
than the three pattern-based warning checks, in source order. -/
def hardAndBonusScore (s : String) (P : PasswordRequirements) : Int :=
  (if s.length < P.minLength then 0 else if s.length ≥ P.minLength then 10 else 0) +
  (if P.requireUppercase && !hasUppercase s then 0 else if hasUppercase s then 15 else 0) +
  (if P.requireLowercase && !hasLowercase s then 0 else if hasLowercase s then 15 else 0) +
  (if P.requireNumbers && !hasNumber s then 0 else if hasNumber s then 15 else 0) +
  (if P.requireSpecialChars && !hasSpecialChar s then 0 else if hasSpecialChar s then 15 else 0) +
  (if P.preventCommonPasswords && isCommonPassword s then -20 else 0) +
  (if s.length ≥ 12 then 10 else 0) +
  (if s.length ≥ 16 then 10 else 0) +
  (if 10 * uniqueCharCount s ≥ 7 * s.length then 10 else 0)

end Gearfalcon

namespace Gearfalcon

/-! Section: Theorems for the claims -/

/-- C9: for every password and policy, the score field of the returned
ValidationResult is at least 0 (the final score is clamped to a minimum
of 0 after all penalties and bonuses). -/
theorem score_clamped_nonneg (s : String) (P : PasswordRequirements) :
    0 ≤ (validatePasswordStrength s P).score := by
  by_cases h : s = "" <;> simp [validatePasswordStrength, h]

/-- C6: for every policy, the evaluator applied to the empty password
short-circuits to isValid false, score 0, strength invalid, and the
single feedback message "Password is required"; the requirements list
is computed on the empty string and no other rule block runs. -/
theorem empty_password_short_circuit (P : PasswordRequirements) :
    (validatePasswordStrength "" P).isValid = false ∧
    (validatePasswordStrength "" P).score = 0 ∧
    (validatePasswordStrength "" P).strength = PasswordStrength.invalid ∧
    (validatePasswordStrength "" P).feedback = ["Password is required"] ∧
    (validatePasswordStrength "" P).requirements = getRequirementsList "" P := by
  refine ⟨?_, ?_, ?_, ?_, ?_⟩ <;> simp [validatePasswordStrength]

/-- C5 counterexample: after setting the token to the empty string (a
non-null string), isAuthenticated is false, because the source computes
it as Boolean(accessToken) and the empty string is falsy — refuting the
claim that isAuthenticated is true for every non-null stored token. -/
theorem isAuthenticated_empty_token_cex :
    isAuthenticated (setAccessTokenStore { accessToken := none } (some "")) = false := by
  decide

/-- C5 amended: isAuthenticated is true exactly when the stored token
is a non-null, nonempty string (JavaScript truthiness of the token);
logout always leaves the store unauthenticated. -/
theorem isAuthenticated_iff_truthy_token (st : AuthState) (t : Option String) :
    (isAuthenticated (setAccessTokenStore st t) = true ↔
      ∃ x, t = some x ∧ x ≠ "") ∧
    isAuthenticated (logoutStore st) = false := by
  cases t <;> simp [isAuthenticated, setAccessTokenStore, logoutStore, jsTruthyStr]

/-- C4: an error that is not a 401 response (including a network error
with no response status at all) or whose request was already retried is
rejected with the original error, unmodified, with the pipeline state
untouched — no refresh is started and nothing is queued. -/
theorem retried_or_non401_rejected_unmodified (s : PipelineState) (reqId : Nat)
    (status : Option Nat) (retried : Bool)
    (h : status ≠ some 401 ∨ retried = true) :
    responseErrorStep s reqId status retried = (s, ErrAction.rejectOriginal) := by
  have hguard : entersRefreshLogic status retried = false := by
    rcases h with h | h <;> simp [entersRefreshLogic, h]
  simp [responseErrorStep, hguard]

/-- Witness for C4 at a network error (no response status) and at an
already-retried 401. -/
theorem retried_or_non401_rejected_unmodified_witness :
    responseErrorStep (idleState (some "T1")) 0 none false =
      (idleState (some "T1"), ErrAction.rejectOriginal) ∧
    responseErrorStep (idleState (some "T1")) 1 (some 401) true =
      (idleState (some "T1"), ErrAction.rejectOriginal) :=
  ⟨retried_or_non401_rejected_unmodified (idleState (some "T1")) 0 none false
      (Or.inl (by decide)),
   retried_or_non401_rejected_unmodified (idleState (some "T1")) 1 (some 401) true
      (Or.inr rfl)⟩

/-- C10: for an empty or whitespace-only password the hook never stores
an evaluator result: validation stays null, isValid false, score 0,
feedback empty, and the reported strength is very-weak, not the invalid
strength the evaluator itself reports on empty input. -/
theorem usePasswordValidation_empty_skips_evaluator (pw : String)
    (P : PasswordRequirements) (h : jsTrim pw = "") :
    (usePasswordValidation pw P).validation = none ∧
    (usePasswordValidation pw P).isValid = false ∧
    (usePasswordValidation pw P).score = 0 ∧
    (usePasswordValidation pw P).feedback = [] ∧
    (usePasswordValidation pw P).strength = PasswordStrength.veryWeak ∧
    (usePasswordValidation pw P).strength ≠ PasswordStrength.invalid := by
  simp [usePasswordValidation, h]

/-- Witness for C10 at a whitespace-only password. -/
theorem usePasswordValidation_empty_skips_evaluator_witness :
    (usePasswordValidation "   " DEFAULT_PASSWORD_REQUIREMENTS).validation = none ∧
    (usePasswordValidation "   " DEFAULT_PASSWORD_REQUIREMENTS).isValid = false ∧
    (usePasswordValidation "   " DEFAULT_PASSWORD_REQUIREMENTS).score = 0 ∧
    (usePasswordValidation "   " DEFAULT_PASSWORD_REQUIREMENTS).feedback = [] ∧
    (usePasswordValidation "   " DEFAULT_PASSWORD_REQUIREMENTS).strength = PasswordStrength.veryWeak ∧
    (usePasswordValidation "   " DEFAULT_PASSWORD_REQUIREMENTS).strength ≠ PasswordStrength.invalid :=
  usePasswordValidation_empty_skips_evaluator "   " DEFAULT_PASSWORD_REQUIREMENTS (by decide)

end Gearfalcon

namespace Gearfalcon

/-- Unfolding of allRequiredMet on the requirements checklist: the
required entries are met exactly when the length floor and every
policy-required class/common check holds.  The maxLength bound does NOT
appear: the checklist has no over-length entry. -/
theorem allRequiredMet_getRequirementsList (s : String) (P : PasswordRequirements) :
    allRequiredMet (getRequirementsList s P) =
      (decide (s.length ≥ P.minLength) &&
       (!P.requireUppercase || hasUppercase s) &&
       (!P.requireLowercase || hasLowercase s) &&
       (!P.requireNumbers || hasNumber s) &&
       (!P.requireSpecialChars || hasSpecialChar s) &&
       (!P.preventCommonPasswords || !isCommonPassword s)) := by
  cases hu : P.requireUppercase <;> cases hl : P.requireLowercase <;>
    cases hn : P.requireNumbers <;> cases hs : P.requireSpecialChars <;>
      cases hc : P.preventCommonPasswords <;>
        simp [allRequiredMet, getRequirementsList, hu, hl, hn, hs, hc,
          Bool.and_assoc]

/-- C2 (amended): isValid is true iff the password is nonempty, does
not exceed maxLength, and every entry with required true in the
returned requirements list has met true.  The extra maxLength conjunct
is forced: the over-length hard failure has no entry in the
requirements checklist. -/
theorem isValid_iff_nonempty_maxlen_required_met (s : String)
    (P : PasswordRequirements) :
    (validatePasswordStrength s P).isValid = true ↔
      (s ≠ "" ∧ s.length ≤ P.maxLength ∧
       allRequiredMet (validatePasswordStrength s P).requirements = true) := by
  by_cases h : s = ""
  · simp [validatePasswordStrength, h]
  · have h1 : (!decide (s.length < P.minLength)) = decide (P.minLength ≤ s.length) := by
      by_cases hx : s.length < P.minLength <;>
        simp [hx, decide_eq_true_eq, decide_eq_false_iff_not] <;> omega
    have h2 : (!decide (s.length > P.maxLength)) = decide (s.length ≤ P.maxLength) := by
      by_cases hx : s.length > P.maxLength <;>
        simp [hx, decide_eq_true_eq, decide_eq_false_iff_not] <;> omega
    simp only [validatePasswordStrength, if_neg h]
    rw [allRequiredMet_getRequirementsList]
    simp only [Bool.not_and, Bool.not_not, h1, h2, ge_iff_le]
    simp only [Bool.and_eq_true, Bool.or_eq_true, Bool.not_eq_true',
      decide_eq_true_eq]
    tauto

end Gearfalcon

namespace Gearfalcon

/-- Password of 129 characters (over the default maxLength of 128) that
satisfies every entry of the requirements checklist. -/
def overlongPassword : String := "Aa1!" ++ String.mk (List.replicate 125 'a')

set_option maxRecDepth 10000 in
/-- C2 counterexample: a 129-character password under the default
policy meets every required entry of the returned requirements list,
yet isValid is false, because the over-length hard failure has no entry
in the checklist — refuting the claimed iff. -/
theorem isValid_iff_required_met_cex :
    allRequiredMet (validatePasswordStrength overlongPassword
      DEFAULT_PASSWORD_REQUIREMENTS).requirements = true ∧
    (validatePasswordStrength overlongPassword
      DEFAULT_PASSWORD_REQUIREMENTS).isValid = false ∧
    overlongPassword.length = 129 ∧
    DEFAULT_PASSWORD_REQUIREMENTS.maxLength = 128 := by
  decide

end Gearfalcon

namespace Gearfalcon

/-- Feedback padding step of the source return: a message known to be
in the accumulated feedback survives the empty-feedback substitution. -/
theorem mem_feedback_pad {msg : String} {fb : List String} (hm : msg ∈ fb) :
    msg ∈ (if fb.length > 0 then fb else ["Password meets all requirements"]) := by
  have hpos : fb.length > 0 := List.length_pos.mpr (List.ne_nil_of_mem hm)
  rw [if_pos hpos]
  exact hm

/-- C8: each heuristic weakness match (sequential run, triple repeat,
keyboard run) appends its warning message to the feedback and
contributes minus ten to the score (the total score is the clamp of the
pattern-free contributions plus the pattern penalty), while isValid is
exactly the conjunction of the hard checks, in which no pattern check
appears — no pattern match can flip isValid by itself. -/
theorem pattern_warnings_soft (s : String) (P : PasswordRequirements)
    (h : s ≠ "") :
    (hasCommonSequence s = true →
      "⚠️ Avoid common sequences like \"123\" or \"abc\" for better security" ∈
        (validatePasswordStrength s P).feedback) ∧
    (hasTripleRepeat s.toList = true →
      "⚠️ Avoid repeating characters like \"aaa\" for better security" ∈
        (validatePasswordStrength s P).feedback) ∧
    (hasKeyboardRun s = true →
      "⚠️ Avoid keyboard patterns like \"qwerty\" for better security" ∈
        (validatePasswordStrength s P).feedback) ∧
    (validatePasswordStrength s P).score =
      max 0 (hardAndBonusScore s P + patternPenalty s) ∧
    (hasCommonSequence s = true → patternPenalty s ≤ -10) ∧
    (hasTripleRepeat s.toList = true → patternPenalty s ≤ -10) ∧
    (hasKeyboardRun s = true → patternPenalty s ≤ -10) ∧
    (validatePasswordStrength s P).isValid = hardChecksOk s P := by
  refine ⟨?_, ?_, ?_, ?_, ?_, ?_, ?_, ?_⟩
  · intro hm
    simp only [validatePasswordStrength, if_neg h]
    exact mem_feedback_pad (by simp [hm])
  · intro hm
    simp only [validatePasswordStrength, if_neg h]
    exact mem_feedback_pad (by simp [show hasTripleRepeat s.data = true from hm])
  · intro hm
    simp only [validatePasswordStrength, if_neg h]
    exact mem_feedback_pad (by simp [hm])
  · simp only [validatePasswordStrength, if_neg h]
    unfold hardAndBonusScore patternPenalty
    congr 1
    ring
  · intro hm
    unfold patternPenalty
    split_ifs <;> simp_all
  · intro hm
    unfold patternPenalty
    split_ifs <;> simp_all
  · intro hm
    unfold patternPenalty
    split_ifs <;> simp_all
  · simp only [validatePasswordStrength, if_neg h]
    rfl

end Gearfalcon

namespace Gearfalcon

/-- Witness for C8 at a password matching all three weakness patterns. -/
theorem pattern_warnings_soft_witness :
    (hasCommonSequence "Qwe123aaa!" = true →
      "⚠️ Avoid common sequences like \"123\" or \"abc\" for better security" ∈
        (validatePasswordStrength "Qwe123aaa!" DEFAULT_PASSWORD_REQUIREMENTS).feedback) ∧
    (hasTripleRepeat "Qwe123aaa!".toList = true →
      "⚠️ Avoid repeating characters like \"aaa\" for better security" ∈
        (validatePasswordStrength "Qwe123aaa!" DEFAULT_PASSWORD_REQUIREMENTS).feedback) ∧
    (hasKeyboardRun "Qwe123aaa!" = true →
      "⚠️ Avoid keyboard patterns like \"qwerty\" for better security" ∈
        (validatePasswordStrength "Qwe123aaa!" DEFAULT_PASSWORD_REQUIREMENTS).feedback) ∧
    (validatePasswordStrength "Qwe123aaa!" DEFAULT_PASSWORD_REQUIREMENTS).score =
      max 0 (hardAndBonusScore "Qwe123aaa!" DEFAULT_PASSWORD_REQUIREMENTS +
        patternPenalty "Qwe123aaa!") ∧
    (hasCommonSequence "Qwe123aaa!" = true → patternPenalty "Qwe123aaa!" ≤ -10) ∧
    (hasTripleRepeat "Qwe123aaa!".toList = true → patternPenalty "Qwe123aaa!" ≤ -10) ∧
    (hasKeyboardRun "Qwe123aaa!" = true → patternPenalty "Qwe123aaa!" ≤ -10) ∧
    (validatePasswordStrength "Qwe123aaa!" DEFAULT_PASSWORD_REQUIREMENTS).isValid =
      hardChecksOk "Qwe123aaa!" DEFAULT_PASSWORD_REQUIREMENTS :=
  pattern_warnings_soft "Qwe123aaa!" DEFAULT_PASSWORD_REQUIREMENTS (by decide)

end Gearfalcon

namespace Gearfalcon

/-- While a refresh is in flight, one more simultaneous 401 handler
only appends its request to the pendingQueue: no further refresh call
is issued and the starter is unchanged. -/
theorem burstStep_refreshing (s : PipelineState) (c : Nat) (st : Option Nat)
    (r : Nat) (h : s.isRefreshing = true) :
    burstStep (s, c, st) r =
      ({ s with pendingQueue := s.pendingQueue ++ [r] }, c, st) := by
  simp [burstStep, responseErrorStep, entersRefreshLogic, h]

/-- Folding any number of simultaneous 401 handlers over a state whose
refresh is already in flight only appends their requests to the
pendingQueue, in arrival order. -/
theorem foldl_burstStep (l : List Nat) : ∀ (s : PipelineState) (c : Nat)
    (st : Option Nat), s.isRefreshing = true →
    List.foldl burstStep (s, c, st) l =
      ({ s with pendingQueue := s.pendingQueue ++ l }, c, st) := by
  induction l with
  | nil => intro s c st h; simp
  | cons a t ih =>
    intro s c st h
    rw [List.foldl_cons, burstStep_refreshing s c st a h,
      ih { s with pendingQueue := s.pendingQueue ++ [a] } c st h]
    simp

/-- Successful-refresh burst characterization: from Idle, k+1
simultaneous 401 failures issue one refresh; on success the triggering
request is retried with the new token unconditionally, while each
queued request is retried with the new token when it is nonempty and
rejected with "No token available" when the new token is the empty
string; the final state is Idle with the new token stored and an empty
queue. -/
theorem run401Burst_ok (k : Nat) (t0 : Option String) (tok : String) :
    run401Burst (idleState t0) (k + 1) (Except.ok tok) =
      { refreshCalls := 1
        outcomes := ((List.range k).map Nat.succ).map
            (fun id => (id, if tok ≠ "" then Outcome.retriedWith tok
              else Outcome.rejected "No token available")) ++
          [(0, Outcome.retriedWith tok)]
        final := { isRefreshing := false, pendingQueue := [], token := some tok } } := by
  unfold run401Burst foldBurst
  rw [List.range_succ_eq_map, List.foldl_cons]
  have h1 : burstStep (idleState t0, 0, none) 0 =
      ({ isRefreshing := true, pendingQueue := [], token := t0 }, 1, some 0) := by
    simp [burstStep, responseErrorStep, entersRefreshLogic, idleState]
  rw [h1, foldl_burstStep _ _ _ _ rfl]
  simp [settleRefresh, processQueue]

/-- Failed-refresh burst characterization: from Idle, k+1 simultaneous
401 failures issue one refresh; on failure every request is rejected
with the refresh error and the final state is Idle with the token
cleared and an empty queue. -/
theorem run401Burst_error (k : Nat) (t0 : Option String) (e : String) :
    run401Burst (idleState t0) (k + 1) (Except.error e) =
      { refreshCalls := 1
        outcomes := ((List.range k).map Nat.succ).map
            (fun id => (id, Outcome.rejected e)) ++ [(0, Outcome.rejected e)]
        final := { isRefreshing := false, pendingQueue := [], token := none } } := by
  unfold run401Burst foldBurst
  rw [List.range_succ_eq_map, List.foldl_cons]
  have h1 : burstStep (idleState t0, 0, none) 0 =
      ({ isRefreshing := true, pendingQueue := [], token := t0 }, 1, some 0) := by
    simp [burstStep, responseErrorStep, entersRefreshLogic, idleState]
  rw [h1, foldl_burstStep _ _ _ _ rfl]
  simp [settleRefresh, processQueue]

/-- Outcome processQueue hands to every queued request: on a refresh
success the continuation resolves with the new token only when that
token is truthy, otherwise it is rejected with "No token available";
on a refresh failure it is rejected with the refresh error. -/
def queuedOutcome : Except String String → Outcome
  | .ok tok =>
    if tok ≠ "" then .retriedWith tok
    else .rejected "No token available"
  | .error e => .rejected e

/-- Outcome of the triggering request: on a refresh success it is
retried with the new token unconditionally (the success path sets its
Authorization header without a truthiness check); on a refresh failure
it is rejected with the refresh error. -/
def triggerOutcome : Except String String → Outcome
  | .ok tok => .retriedWith tok
  | .error e => .rejected e

/-- Token stored at the end of a refresh cycle: the new token on
success (even the empty string), cleared on failure. -/
def refreshedToken : Except String String → Option String
  | .ok tok => some tok
  | .error _ => none

/-- C1 (amended): for every k simultaneous 401-failing requests
arriving while Idle, exactly one refresh call is issued, the queue is
drained exactly once and ends empty; the queued requests all receive
queuedOutcome and the triggering request triggerOutcome, so on a
refresh failure every request is rejected with the refresh error and
the token store is cleared, and on a refresh success with a nonempty
token every request is retried with the new token — all-or-nothing in
both of those cases; but on a refresh success whose access token is the
empty string, processQueue rejects every queued request with "No token
available" while the triggering request is still retried, a partial
split. -/
theorem single_flight_refresh_drain (k : Nat) (t0 : Option String)
    (result : Except String String) (hk : 0 < k) :
    (run401Burst (idleState t0) k result).refreshCalls = 1 ∧
    (run401Burst (idleState t0) k result).outcomes =
      ((List.range (k - 1)).map Nat.succ).map
        (fun id => (id, queuedOutcome result)) ++ [(0, triggerOutcome result)] ∧
    (run401Burst (idleState t0) k result).outcomes.length = k ∧
    ((run401Burst (idleState t0) k result).outcomes.map Prod.fst).Perm
      (List.range k) ∧
    (run401Burst (idleState t0) k result).final.pendingQueue = [] ∧
    (run401Burst (idleState t0) k result).final.isRefreshing = false ∧
    (run401Burst (idleState t0) k result).final.token = refreshedToken result ∧
    (result ≠ Except.ok "" →
      (run401Burst (idleState t0) k result).outcomes.all
        (fun p => p.2 == triggerOutcome result) = true) := by
  obtain ⟨k', rfl⟩ : ∃ k', k = k' + 1 := ⟨k - 1, by omega⟩
  have hperm : (((List.range k').map Nat.succ) ++ [0]).Perm
      (List.range (k' + 1)) := by
    rw [List.range_succ_eq_map]
    exact List.perm_append_singleton _ _
  cases result with
  | ok tok =>
    rw [run401Burst_ok]
    refine ⟨rfl, ?_, by simp, by simpa using hperm, rfl, rfl, rfl, ?_⟩
    · simp [queuedOutcome, triggerOutcome]
    · intro hne
      have htok : tok ≠ "" := by
        intro hh
        exact hne (by rw [hh])
      simp [htok, triggerOutcome]
  | error e =>
    rw [run401Burst_error]
    refine ⟨rfl, ?_, by simp, by simpa using hperm, rfl, rfl, rfl, ?_⟩
    · simp [queuedOutcome, triggerOutcome]
    · intro hne
      simp [triggerOutcome]

/-- C1 counterexample: two simultaneous 401 failures from Idle with a
refresh that succeeds but delivers an empty access token: the queued
request is rejected with "No token available" while the triggering
request is retried with the empty token — a partial split among the
two requests, refuting the all-or-nothing claim. -/
theorem single_flight_partial_split_cex :
    (run401Burst (idleState (some "T1")) 2 (Except.ok "")).refreshCalls = 1 ∧
    (run401Burst (idleState (some "T1")) 2 (Except.ok "")).outcomes =
      [(1, Outcome.rejected "No token available"), (0, Outcome.retriedWith "")] ∧
    Outcome.rejected "No token available" ≠ Outcome.retriedWith "" := by
  refine ⟨rfl, rfl, by decide⟩

end Gearfalcon

namespace Gearfalcon

/-- Witness for C1: three simultaneous 401 failures from Idle with a
refresh that succeeds with the nonempty token T2. -/
theorem single_flight_refresh_drain_witness :
    (run401Burst (idleState (some "T1")) 3 (Except.ok "T2")).refreshCalls = 1 ∧
    (run401Burst (idleState (some "T1")) 3 (Except.ok "T2")).outcomes =
      ((List.range (3 - 1)).map Nat.succ).map
        (fun id => (id, queuedOutcome (Except.ok "T2"))) ++
      [(0, triggerOutcome (Except.ok "T2"))] ∧
    (run401Burst (idleState (some "T1")) 3 (Except.ok "T2")).outcomes.length = 3 ∧
    ((run401Burst (idleState (some "T1")) 3 (Except.ok "T2")).outcomes.map Prod.fst).Perm
      (List.range 3) ∧
    (run401Burst (idleState (some "T1")) 3 (Except.ok "T2")).final.pendingQueue = [] ∧
    (run401Burst (idleState (some "T1")) 3 (Except.ok "T2")).final.isRefreshing = false ∧
    (run401Burst (idleState (some "T1")) 3 (Except.ok "T2")).final.token =
      refreshedToken (Except.ok "T2") ∧
    (Except.ok (ε := String) "T2" ≠ Except.ok "" →
      (run401Burst (idleState (some "T1")) 3 (Except.ok "T2")).outcomes.all
        (fun p => p.2 == triggerOutcome (Except.ok "T2")) = true) :=
  single_flight_refresh_drain 3 (some "T1") (Except.ok "T2") (by decide)

end Gearfalcon

namespace Gearfalcon

/-- C3 counterexample: with a refresh in flight (state Refreshing) and
old token T1 stored, a request issued through the pipeline is NOT
queued — the request interceptor sends it to the network immediately,
carrying the old token in its Authorization header. -/
theorem refreshing_request_sent_not_queued_cex :
    issueRequest { isRefreshing := true, pendingQueue := [], token := some "T1" } [] =
      IssueResult.sent [("Authorization", "Bearer T1")] ∧
    issueRequest { isRefreshing := true, pendingQueue := [], token := some "T1" } [] ≠
      IssueResult.queued := by
  constructor
  · rfl
  · decide

/-- C3 (amended): the request interceptor never queues — a request
issued while Refreshing is sent immediately, with the Authorization
header set to the currently stored (old) token when that token is
truthy (non-null and nonempty) and with its headers unchanged when the
stored token is null or the empty string; only a request that receives
a 401 response during Refreshing (and was not already retried) is
appended to the pendingQueue, and on a refresh success with a nonempty
new token its continuation is resolved as a retry carrying the new
access token. -/
theorem refreshing_request_pipeline_amended (s : PipelineState)
    (hdrs : List (String × String)) (reqId : Nat) (t tok : String)
    (h : s.isRefreshing = true) (htok : tok ≠ "") :
    issueRequest s hdrs ≠ IssueResult.queued ∧
    (s.token = some t → t ≠ "" →
      issueRequest s hdrs = IssueResult.sent (withAuthHeader t hdrs)) ∧
    (s.token = some "" → issueRequest s hdrs = IssueResult.sent hdrs) ∧
    (s.token = none → issueRequest s hdrs = IssueResult.sent hdrs) ∧
    responseErrorStep s reqId (some 401) false =
      ({ s with pendingQueue := s.pendingQueue ++ [reqId] }, ErrAction.enqueued) ∧
    (reqId, Outcome.retriedWith tok) ∈
      (settleRefresh { s with pendingQueue := s.pendingQueue ++ [reqId] }
        (Except.ok tok)).2.1 := by
  refine ⟨?_, ?_, ?_, ?_, ?_, ?_⟩
  · simp [issueRequest]
  · intro ht hne
    simp [issueRequest, requestHeaders, ht, hne]
  · intro ht
    simp [issueRequest, requestHeaders, ht]
  · intro ht
    simp [issueRequest, requestHeaders, ht]
  · simp [responseErrorStep, entersRefreshLogic, h]
  · simp [settleRefresh, processQueue, htok]

/-- Witness for C3 at a Refreshing state holding old token T1, with a
refresh that succeeds with the nonempty token T2. -/
theorem refreshing_request_pipeline_amended_witness :
    issueRequest { isRefreshing := true, pendingQueue := [], token := some "T1" }
      [("Accept", "application/json")] ≠ IssueResult.queued ∧
    (({ isRefreshing := true, pendingQueue := [], token := some "T1" } :
        PipelineState).token = some "T1" → "T1" ≠ "" →
      issueRequest { isRefreshing := true, pendingQueue := [], token := some "T1" }
        [("Accept", "application/json")] =
        IssueResult.sent (withAuthHeader "T1" [("Accept", "application/json")])) ∧
    (({ isRefreshing := true, pendingQueue := [], token := some "T1" } :
        PipelineState).token = some "" →
      issueRequest { isRefreshing := true, pendingQueue := [], token := some "T1" }
        [("Accept", "application/json")] =
        IssueResult.sent [("Accept", "application/json")]) ∧
    (({ isRefreshing := true, pendingQueue := [], token := some "T1" } :
        PipelineState).token = none →
      issueRequest { isRefreshing := true, pendingQueue := [], token := some "T1" }
        [("Accept", "application/json")] =
        IssueResult.sent [("Accept", "application/json")]) ∧
    responseErrorStep { isRefreshing := true, pendingQueue := [], token := some "T1" }
      7 (some 401) false =
      ({ ({ isRefreshing := true, pendingQueue := [], token := some "T1" } : PipelineState) with
          pendingQueue :=
            ({ isRefreshing := true, pendingQueue := [], token := some "T1" } : PipelineState).pendingQueue ++ [7] },
        ErrAction.enqueued) ∧
    (7, Outcome.retriedWith "T2") ∈
      (settleRefresh { ({ isRefreshing := true, pendingQueue := [], token := some "T1" } : PipelineState) with
          pendingQueue :=
            ({ isRefreshing := true, pendingQueue := [], token := some "T1" } : PipelineState).pendingQueue ++ [7] }
        (Except.ok "T2")).2.1 :=
  refreshing_request_pipeline_amended
    { isRefreshing := true, pendingQueue := [], token := some "T1" }
    [("Accept", "application/json")] 7 "T1" "T2" rfl (by decide)

end Gearfalcon

namespace Gearfalcon

/-- The in-place swap of the shuffle preserves the list length. -/
theorem length_listSwap (l : List Char) (i j : Nat) :
    (listSwap l i j).length = l.length := by
  simp [listSwap]

/-- The in-place swap of the shuffle preserves membership: every
element of the array is still in the array after a swap of two valid
positions. -/
theorem mem_listSwap (l : List Char) (i j : Nat) (hi : i < l.length)
    (hj : j < l.length) {x : Char} (hx : x ∈ l) : x ∈ listSwap l i j := by
  obtain ⟨k, hk, rfl⟩ := List.mem_iff_getElem.mp hx
  by_cases hkj : k = j
  · subst hkj
    refine List.mem_iff_getElem.mpr ⟨i, by simp [listSwap]; omega, ?_⟩
    unfold listSwap
    by_cases hik : i = k
    · subst hik
      rw [List.getElem_set_self (by simp; omega)]
      exact List.getD_eq_getElem l 'A' hi
    · rw [List.getElem_set_ne (fun hh => hik hh.symm)]
      rw [List.getElem_set_self (by simp; omega)]
      exact List.getD_eq_getElem l 'A' hk
  · by_cases hki : k = i
    · subst hki
      refine List.mem_iff_getElem.mpr ⟨j, by simp [listSwap]; omega, ?_⟩
      unfold listSwap
      rw [List.getElem_set_self (by simp; omega)]
      exact List.getD_eq_getElem l 'A' hk
    · refine List.mem_iff_getElem.mpr ⟨k, by simp [listSwap]; omega, ?_⟩
      unfold listSwap
      rw [List.getElem_set_ne (fun hh => hkj hh.symm),
        List.getElem_set_ne (fun hh => hki hh.symm)]

/-- The Fisher-Yates loop preserves the array length. -/
theorem length_fisherYates (o : Nat → Nat) :
    ∀ (i k : Nat) (arr : List Char),
      (fisherYates o k i arr).length = arr.length := by
  intro i
  induction i with
  | zero => intro k arr; rfl
  | succ i' ih =>
    intro k arr
    rw [fisherYates, ih, length_listSwap]

/-- The Fisher-Yates loop preserves membership when its start index is
a valid position: the random index of every swap is reduced modulo a
bound that keeps it in range. -/
theorem mem_fisherYates (o : Nat → Nat) :
    ∀ (i k : Nat) (arr : List Char) (x : Char), i < arr.length → x ∈ arr →
      x ∈ fisherYates o k i arr := by
  intro i
  induction i with
  | zero => intro k arr x _ hx; exact hx
  | succ i' ih =>
    intro k arr x hi hx
    rw [fisherYates]
    apply ih
    · rw [length_listSwap]; omega
    · refine mem_listSwap arr (i' + 1) (o k % (i' + 2)) hi ?_ hx
      have hmod : o k % (i' + 2) < i' + 2 := Nat.mod_lt _ (by omega)
      omega

/-- One random draw into a nonempty pool picks a character of the
pool. -/
theorem pick_mem (pool : String) (d : Nat) (h : 0 < pool.length) :
    pick pool d ∈ pool.toList := by
  unfold pick
  have hlt : d % pool.length < pool.toList.length := Nat.mod_lt _ h
  rw [List.getD_eq_getElem pool.toList 'A' hlt]
  exact List.getElem_mem hlt

end Gearfalcon

namespace Gearfalcon

/-- Seed characters and fill of the generator, before the shuffle. -/
def genPreShuffle (oracle : Nat → Nat) : List Char :=
  [pick GEN_UPPERCASE (oracle 0), pick GEN_LOWERCASE (oracle 1),
   pick GEN_NUMBERS (oracle 2), pick GEN_SPECIAL (oracle 3)] ++
  (List.range 8).map (fun i => pick GEN_ALL (oracle (4 + i)))

/-- The generator output is the shuffle of the pre-shuffle array. -/
theorem generateSecurePassword_eq (oracle : Nat → Nat) :
    generateSecurePassword oracle =
      String.mk (fisherYates oracle 12 ((genPreShuffle oracle).length - 1)
        (genPreShuffle oracle)) := rfl

/-- The pre-shuffle array has exactly 12 characters. -/
theorem genPreShuffle_length (oracle : Nat → Nat) :
    (genPreShuffle oracle).length = 12 := by
  simp [genPreShuffle]

/-- C7 (amended): generateSecurePassword takes no length argument and,
for every behavior of the random source, returns a string of exactly 12
characters that contains at least one character from each of the four
pools: uppercase, lowercase, digits, and the generator special pool. -/
theorem generateSecurePassword_fixed_length_and_classes (oracle : Nat → Nat) :
    (generateSecurePassword oracle).length = 12 ∧
    (generateSecurePassword oracle).toList.any
      (fun c => GEN_UPPERCASE.toList.contains c) = true ∧
    (generateSecurePassword oracle).toList.any
      (fun c => GEN_LOWERCASE.toList.contains c) = true ∧
    (generateSecurePassword oracle).toList.any
      (fun c => GEN_NUMBERS.toList.contains c) = true ∧
    (generateSecurePassword oracle).toList.any
      (fun c => GEN_SPECIAL.toList.contains c) = true := by
  have hmk_len : ∀ l : List Char, (String.mk l).length = l.length := fun l => rfl
  have hmk_toList : ∀ l : List Char, (String.mk l).toList = l := fun l => rfl
  rw [generateSecurePassword_eq, hmk_len, hmk_toList]
  have hlen := genPreShuffle_length oracle
  have hidx : (genPreShuffle oracle).length - 1 < (genPreShuffle oracle).length := by
    omega
  have hmem : ∀ x ∈ genPreShuffle oracle,
      x ∈ fisherYates oracle 12 ((genPreShuffle oracle).length - 1)
        (genPreShuffle oracle) := by
    intro x hx
    exact mem_fisherYates oracle _ 12 _ x hidx hx
  refine ⟨?_, ?_, ?_, ?_, ?_⟩
  · rw [length_fisherYates, hlen]
  · exact List.any_eq_true.mpr ⟨pick GEN_UPPERCASE (oracle 0),
      hmem _ (by simp [genPreShuffle]),
      List.elem_eq_true_of_mem (pick_mem GEN_UPPERCASE (oracle 0) (by decide))⟩
  · exact List.any_eq_true.mpr ⟨pick GEN_LOWERCASE (oracle 1),
      hmem _ (by simp [genPreShuffle]),
      List.elem_eq_true_of_mem (pick_mem GEN_LOWERCASE (oracle 1) (by decide))⟩
  · exact List.any_eq_true.mpr ⟨pick GEN_NUMBERS (oracle 2),
      hmem _ (by simp [genPreShuffle]),
      List.elem_eq_true_of_mem (pick_mem GEN_NUMBERS (oracle 2) (by decide))⟩
  · exact List.any_eq_true.mpr ⟨pick GEN_SPECIAL (oracle 3),
      hmem _ (by simp [genPreShuffle]),
      List.elem_eq_true_of_mem (pick_mem GEN_SPECIAL (oracle 3) (by decide))⟩

/-- Random source that always answers 0, for the counterexample. -/
def zeroOracle : Nat → Nat := fun _ => 0

/-- C7 counterexample: the source function declares no length
parameter, so the JavaScript call generateSecurePassword(4) ignores the
argument: the result has length 12, not the requested 4 — refuting the
claim that generate(n) has length exactly n for every n of at least 4. -/
theorem generateSecurePassword_ignores_length_cex :
    (generateSecurePasswordCalledWith 4 zeroOracle).length = 12 ∧
    (generateSecurePasswordCalledWith 4 zeroOracle).length ≠ 4 := by
  decide

end Gearfalcon
